import Mathlib

/-!
Shallow embedding of `core/pkg/telemetry/metrics.go` (flagd telemetry facade)
and verification of its specified properties.

Modelling choices:
* An OpenTelemetry attribute (`attribute.KeyValue`) is a key/value pair of
  strings — every attribute built by this file's Go source carries a string
  value.
* An instrument is identified by its name together with the scope of the
  meter that created it (`Identity = (name, scope = service name)`).
* The backend accumulation state is a trace of events: a `record` event for a
  `Float64Histogram.Record` call and an `add` event for an
  `Int64Counter.Add` / `Int64UpDownCounter.Add` call.  Each Go recording
  method becomes a function from the receiver and a trace to the (receiver,
  trace) pair it leaves behind; Go value receivers cannot mutate the caller's
  struct, which the embedding reflects by returning the receiver.
* Go `float64` quantities that are produced exactly (bucket boundaries,
  `time.Duration.Seconds` on the inputs considered, `float64(int64)`)
  are embedded as rationals.
* A Go `error` is `Option String`: `none` is `nil`, `some msg` is a non-nil
  error whose `Error()` is `msg`.
-/

namespace Telemetry

/-- An OpenTelemetry `attribute.KeyValue` with a string value. -/
structure KeyValue where
  key : String
  value : String
deriving DecidableEq

/-- Instrument identity: name plus the scope (service name) of the meter that
created it. -/
structure InstrumentId where
  name : String
  scope : String
deriving DecidableEq

/-- One accumulation event inside the measurement backend: a histogram
`Record` of a floating value, or a counter `Add` of an integer value. -/
inductive Event where
  | record (inst : InstrumentId) (value : ℚ) (attrs : List KeyValue)
  | add (inst : InstrumentId) (value : ℤ) (attrs : List KeyValue)
deriving DecidableEq

/-- `requestDurationName` constant from the source. -/
def requestDurationName : String := "http_request_duration_seconds"

/-- `responseSizeName` constant from the source. -/
def responseSizeName : String := "http_response_size_bytes"

/-- `FlagdProviderName` constant from the source. -/
def FlagdProviderName : String := "flagd"

/-- `FeatureFlagReasonKeyName` constant from the source. -/
def FeatureFlagReasonKeyName : String := "feature_flag.reason"

/-- `ExceptionTypeKeyName` constant from the source. -/
def ExceptionTypeKeyName : String := "exception.type"

/-- `FeatureFlagReason` from the source: the reason attribute under the fixed
key `feature_flag.reason`. -/
def FeatureFlagReason (val : String) : KeyValue :=
  { key := FeatureFlagReasonKeyName, value := val }

/-- `ExceptionType` from the source: the exception attribute under the fixed
key `exception.type`. -/
def ExceptionType (val : String) : KeyValue :=
  { key := ExceptionTypeKeyName, value := val }

/-- `semconv.FeatureFlagProviderName` (semconv v1.18.0): attribute under key
`feature_flag.provider_name`. -/
def FeatureFlagProviderName (val : String) : KeyValue :=
  { key := "feature_flag.provider_name", value := val }

/-- Modelled from the spec: `SemConvFeatureFlagAttributes` is code of this
repository that is not under `src/`; the spec says the flag-identity
attributes (flag key, variant) "are produced by an external helper and simply
appended to the reason/impression attribute lists", using standard
semantic-convention naming of feature-flag attributes. -/
def SemConvFeatureFlagAttributes (key variant : String) : List KeyValue :=
  [ { key := "feature_flag.key", value := key },
    { key := "feature_flag.variant", value := variant } ]

/-- The `MetricsRecorder` struct: five instrument handles. -/
structure MetricsRecorder where
  httpRequestDurHistogram : InstrumentId
  httpResponseSizeHistogram : InstrumentId
  httpRequestsInflight : InstrumentId
  impressions : InstrumentId
  reasons : InstrumentId
deriving DecidableEq

/-- `MetricsRecorder.HTTPAttributes` from the source, with the semconv
v1.18.0 keys `service.name`, `http.url`, `http.method`, `http.status_code`
spelled out. -/
def MetricsRecorder.HTTPAttributes (_r : MetricsRecorder)
    (svcName url method code : String) : List KeyValue :=
  [ { key := "service.name", value := svcName },
    { key := "http.url", value := url },
    { key := "http.method", value := method },
    { key := "http.status_code", value := code } ]

/-- Go `time.Duration.Seconds()`: `sec := d / Second; nsec := d % Second;
return float64(sec) + float64(nsec)/1e9`, with Go's truncated division,
embedded exactly in ℚ. -/
def durationSeconds (d : ℤ) : ℚ :=
  (Int.tdiv d 1000000000 : ℚ) + (Int.tmod d 1000000000 : ℚ) / 1000000000

/-- `MetricsRecorder.HTTPRequestDuration`: records `duration.Seconds()` into
the duration histogram. -/
def MetricsRecorder.HTTPRequestDuration (r : MetricsRecorder) (duration : ℤ)
    (attrs : List KeyValue) (tr : List Event) : MetricsRecorder × List Event :=
  (r, tr ++ [Event.record r.httpRequestDurHistogram (durationSeconds duration) attrs])

/-- `MetricsRecorder.HTTPResponseSize`: records `float64(sizeBytes)` into the
size histogram. -/
def MetricsRecorder.HTTPResponseSize (r : MetricsRecorder) (sizeBytes : ℤ)
    (attrs : List KeyValue) (tr : List Event) : MetricsRecorder × List Event :=
  (r, tr ++ [Event.record r.httpResponseSizeHistogram (sizeBytes : ℚ) attrs])

/-- `MetricsRecorder.InFlightRequestStart`: adds `1` to the in-flight
up/down counter. -/
def MetricsRecorder.InFlightRequestStart (r : MetricsRecorder)
    (attrs : List KeyValue) (tr : List Event) : MetricsRecorder × List Event :=
  (r, tr ++ [Event.add r.httpRequestsInflight 1 attrs])

/-- `MetricsRecorder.InFlightRequestEnd`: adds `-1` to the in-flight
up/down counter. -/
def MetricsRecorder.InFlightRequestEnd (r : MetricsRecorder)
    (attrs : List KeyValue) (tr : List Event) : MetricsRecorder × List Event :=
  (r, tr ++ [Event.add r.httpRequestsInflight (-1) attrs])

/-- `MetricsRecorder.Impressions`: adds `1` to the impressions counter with
the flag-identity attributes plus the reason attribute. -/
def MetricsRecorder.Impressions (r : MetricsRecorder)
    (reason variant key : String) (tr : List Event) : MetricsRecorder × List Event :=
  (r, tr ++ [Event.add r.impressions 1
      (SemConvFeatureFlagAttributes key variant ++ [FeatureFlagReason reason])])

/-- The attribute list built inside `MetricsRecorder.Reasons` (the local
`attrs` variable): provider name and reason, with the exception-type
attribute appended when the error is non-nil. -/
def reasonsAttrs (reason : String) (err : Option String) : List KeyValue :=
  let attrs := [FeatureFlagProviderName FlagdProviderName, FeatureFlagReason reason]
  match err with
  | some msg => attrs ++ [ExceptionType msg]
  | none => attrs

/-- `MetricsRecorder.Reasons`: adds `1` to the reasons counter with the
attributes of `reasonsAttrs`. -/
def MetricsRecorder.Reasons (r : MetricsRecorder) (reason : String)
    (err : Option String) (tr : List Event) : MetricsRecorder × List Event :=
  (r, tr ++ [Event.add r.reasons 1 (reasonsAttrs reason err)])

/-- `MetricsRecorder.RecordEvaluation`: if the error is nil, call
`Impressions`; always call `Reasons`. -/
def MetricsRecorder.RecordEvaluation (r : MetricsRecorder) (err : Option String)
    (reason variant key : String) (tr : List Event) : MetricsRecorder × List Event :=
  let tr1 := if err = none then (r.Impressions reason variant key tr).2 else tr
  r.Reasons reason err tr1

/-- An aggregation view: the instrument-name selector and scope selector of
its `metric.Instrument` matcher, and the explicit histogram bucket
boundaries of its `metric.Stream`. -/
structure View where
  instrumentName : String
  scopeName : String
  boundaries : List ℚ
deriving DecidableEq

/-- `getDurationView` from the source.  The first parameter is called
`svcName` and becomes the scope selector; the second is called `viewName`
and becomes the instrument-name selector. -/
def getDurationView (svcName viewName : String) (bucket : List ℚ) : View :=
  { instrumentName := viewName
    scopeName := svcName
    boundaries := bucket }

/-- Whether a view's selectors match a given instrument, per the backend
contract "register view(instrument-name-match, scope-match, …)". -/
def View.selects (v : View) (inst : InstrumentId) : Bool :=
  v.instrumentName = inst.name && v.scopeName = inst.scope

/-- `prometheus.DefBuckets`: the Prometheus default latency buckets. -/
def DefBuckets : List ℚ :=
  [0.005, 0.01, 0.025, 0.05, 0.1, 0.25, 0.5, 1, 2.5, 5, 10]

/-- `prometheus.ExponentialBuckets(start, factor, count)`: `count` buckets,
the first at `start`, each subsequent one `factor` times the previous. -/
def ExponentialBuckets (start factor : ℚ) : Nat → List ℚ
  | 0 => []
  | n + 1 => start :: ExponentialBuckets (start * factor) factor n

/-- The observable outcome of `NewOTelRecorder`: the views registered on the
provider, in registration order, and the recorder with its five instrument
handles. -/
structure OTelSetup where
  views : List View
  recorder : MetricsRecorder
deriving DecidableEq

/-- `NewOTelRecorder` from the source: registers the two views (passing
`getDurationView` first the instrument-name constant, then the service
name, then the buckets, exactly as the call sites do), derives a meter
scoped to `serviceName`, and creates the five instruments from it. -/
def NewOTelRecorder (serviceName : String) : OTelSetup :=
  { views :=
      [ getDurationView requestDurationName serviceName DefBuckets,
        getDurationView responseSizeName serviceName (ExponentialBuckets 100 10 8) ]
    recorder :=
      { httpRequestDurHistogram := { name := requestDurationName, scope := serviceName }
        httpResponseSizeHistogram := { name := responseSizeName, scope := serviceName }
        httpRequestsInflight := { name := "http_requests_inflight", scope := serviceName }
        impressions := { name := "impressions", scope := serviceName }
        reasons := { name := "reasons", scope := serviceName } } }

/-- Net accumulated value of a counter instrument over a trace: the sum of
the values of all `add` events on that instrument. -/
def counterValue (inst : InstrumentId) : List Event → ℤ
  | [] => 0
  | Event.record _ _ _ :: rest => counterValue inst rest
  | Event.add i v _ :: rest => (if i = inst then v else 0) + counterValue inst rest

/-- Number of `add` events on a counter instrument in a trace. -/
def addCount (inst : InstrumentId) : List Event → Nat
  | [] => 0
  | Event.record _ _ _ :: rest => addCount inst rest
  | Event.add i _ _ :: rest => (if i = inst then 1 else 0) + addCount inst rest

theorem counterValue_append (inst : InstrumentId) (a b : List Event) :
    counterValue inst (a ++ b) = counterValue inst a + counterValue inst b := by
  induction a with
  | nil => simp [counterValue]
  | cons e rest ih =>
      cases e with
      | record i v attrs => simpa [counterValue] using ih
      | add i v attrs => simp [counterValue, ih]; ring

theorem addCount_append (inst : InstrumentId) (a b : List Event) :
    addCount inst (a ++ b) = addCount inst a + addCount inst b := by
  induction a with
  | nil => simp [addCount]
  | cons e rest ih =>
      cases e with
      | record i v attrs => simpa [addCount] using ih
      | add i v attrs => simp [addCount, ih]; ring

/-- Claim C1 (code bug, evaluated at service name "flagd"): the two views
registered by `NewOTelRecorder` have their selectors swapped — each view's
instrument-name selector equals the service name and its scope selector
equals the literal instrument name, the reverse of what the claim (and the
source's own comments) state — and consequently neither registered view
selects either histogram instrument the recorder creates. -/
theorem views_selectors_swapped :
    ((NewOTelRecorder "flagd").views.map fun v => (v.instrumentName, v.scopeName))
        = [("flagd", "http_request_duration_seconds"),
           ("flagd", "http_response_size_bytes")]
    ∧ (NewOTelRecorder "flagd").views.all
        (fun v => !(v.selects (NewOTelRecorder "flagd").recorder.httpRequestDurHistogram)
            && !(v.selects (NewOTelRecorder "flagd").recorder.httpResponseSizeHistogram))
        = true := by
  constructor
  · rfl
  · decide

/-- Claim C10: for every service name, the duration view registered first
during construction carries exactly the Prometheus default latency bucket
boundaries, the 11 values 0.005 … 10 seconds. -/
theorem durationView_boundaries (svc : String) :
    ((NewOTelRecorder svc).views.map View.boundaries).head? =
      some [0.005, 0.01, 0.025, 0.05, 0.1, 0.25, 0.5, 1, 2.5, 5, 10] := rfl

/-- Claim C4: for every service name, the size view registered second during
construction carries exactly the 8 boundaries 100, 1000, …, 1000000000
(start 100, factor 10). -/
theorem sizeView_boundaries (svc : String) :
    ((NewOTelRecorder svc).views.map View.boundaries).get? 1 =
      some [100, 1000, 10000, 100000, 1000000, 10000000, 100000000, 1000000000] := by
  show some (ExponentialBuckets 100 10 8) = _
  norm_num [ExponentialBuckets]

/-- Claim C5: for all four input strings, `HTTPAttributes` returns exactly
the 4 attributes with the supplied literal values, under the standardized
keys for service name, URL, method and status code, in that order, the
status code carried as a string. -/
theorem HTTPAttributes_spec (r : MetricsRecorder) (svc url method code : String) :
    r.HTTPAttributes svc url method code =
      [ { key := "service.name", value := svc },
        { key := "http.url", value := url },
        { key := "http.method", value := method },
        { key := "http.status_code", value := code } ]
    ∧ (r.HTTPAttributes svc url method code).length = 4 := ⟨rfl, rfl⟩

/-- Claim C6: for every elapsed duration (in nanoseconds) and attributes,
`HTTPRequestDuration` appends exactly one record of `duration.Seconds()` to
the duration histogram; `Seconds()` equals the exact quotient by 10^9, and a
duration of 1500 milliseconds records the value 1.5. -/
theorem HTTPRequestDuration_spec (r : MetricsRecorder) (d : ℤ)
    (attrs : List KeyValue) (tr : List Event) :
    (r.HTTPRequestDuration d attrs tr).2
        = tr ++ [Event.record r.httpRequestDurHistogram (durationSeconds d) attrs]
    ∧ durationSeconds d = (d : ℚ) / 1000000000
    ∧ durationSeconds 1500000000 = 1.5 := by
  have hgen : ∀ x : ℤ, durationSeconds x = (x : ℚ) / 1000000000 := by
    intro x
    have h : (1000000000 : ℚ) * (Int.tdiv x 1000000000 : ℚ)
        + (Int.tmod x 1000000000 : ℚ) = (x : ℚ) := by
      exact_mod_cast Int.tdiv_add_tmod x 1000000000
    rw [durationSeconds, eq_div_iff (by norm_num : (1000000000 : ℚ) ≠ 0)]
    linarith [h]
  exact ⟨rfl, hgen d, by rw [hgen]; norm_num⟩

/-- Claim C8: for every signed byte count, including negative values,
`HTTPResponseSize` appends exactly one record of the count cast to a
floating value to the size histogram, with no validation; 2048 records
2048 and -7 records -7. -/
theorem HTTPResponseSize_spec (r : MetricsRecorder) (sz : ℤ)
    (attrs : List KeyValue) (tr : List Event) :
    (r.HTTPResponseSize sz attrs tr).2
        = tr ++ [Event.record r.httpResponseSizeHistogram (sz : ℚ) attrs]
    ∧ (r.HTTPResponseSize 2048 attrs tr).2
        = tr ++ [Event.record r.httpResponseSizeHistogram 2048 attrs]
    ∧ (r.HTTPResponseSize (-7) attrs tr).2
        = tr ++ [Event.record r.httpResponseSizeHistogram (-7) attrs] := by
  refine ⟨rfl, ?_, ?_⟩ <;> norm_num [MetricsRecorder.HTTPResponseSize]

/-- Claim C9: every recording operation returns the receiver unchanged — in
particular all five instrument handles are untouched; the recorder value is
read-only after construction. -/
theorem recorder_readonly (r : MetricsRecorder) (d sz : ℤ)
    (attrs : List KeyValue) (tr : List Event)
    (reason variant key : String) (err : Option String) :
    (r.HTTPRequestDuration d attrs tr).1 = r
    ∧ (r.HTTPResponseSize sz attrs tr).1 = r
    ∧ (r.InFlightRequestStart attrs tr).1 = r
    ∧ (r.InFlightRequestEnd attrs tr).1 = r
    ∧ (r.Impressions reason variant key tr).1 = r
    ∧ (r.Reasons reason err tr).1 = r
    ∧ (r.RecordEvaluation err reason variant key tr).1 = r :=
  ⟨rfl, rfl, rfl, rfl, rfl, rfl, rfl⟩

/-- Claim C7: `InFlightRequestStart` adds exactly +1 and
`InFlightRequestEnd` exactly -1 to the in-flight up/down counter, so a
Start followed by an End with identical attributes restores the counter's
previous value; nothing clamps, so an unpaired End drives the counter to
-1 from an empty trace. -/
theorem inflight_spec (r : MetricsRecorder) (attrs : List KeyValue) (tr : List Event) :
    counterValue r.httpRequestsInflight ((r.InFlightRequestStart attrs tr).2)
        = counterValue r.httpRequestsInflight tr + 1
    ∧ counterValue r.httpRequestsInflight ((r.InFlightRequestEnd attrs tr).2)
        = counterValue r.httpRequestsInflight tr - 1
    ∧ counterValue r.httpRequestsInflight
          ((r.InFlightRequestEnd attrs ((r.InFlightRequestStart attrs tr).2)).2)
        = counterValue r.httpRequestsInflight tr
    ∧ counterValue r.httpRequestsInflight ((r.InFlightRequestEnd attrs []).2) = -1 := by
  refine ⟨?_, ?_, ?_, ?_⟩ <;>
    · simp [MetricsRecorder.InFlightRequestStart, MetricsRecorder.InFlightRequestEnd,
        counterValue_append, counterValue]
      try ring

/-- Claim C2: for every service name, context trace, reason, variant and
flag key, `RecordEvaluation` with a nil error appends exactly one
impressions increment of 1 and exactly one reasons increment of 1, and the
attribute set on the reasons increment contains no exception-type key. -/
theorem RecordEvaluation_success (svc reason variant key : String) (tr : List Event) :
    ((NewOTelRecorder svc).recorder.RecordEvaluation none reason variant key tr).2
        = tr ++ [Event.add (NewOTelRecorder svc).recorder.impressions 1
                   (SemConvFeatureFlagAttributes key variant ++ [FeatureFlagReason reason]),
                 Event.add (NewOTelRecorder svc).recorder.reasons 1 (reasonsAttrs reason none)]
    ∧ counterValue (NewOTelRecorder svc).recorder.impressions
          (((NewOTelRecorder svc).recorder.RecordEvaluation none reason variant key tr).2)
        = counterValue (NewOTelRecorder svc).recorder.impressions tr + 1
    ∧ addCount (NewOTelRecorder svc).recorder.impressions
          (((NewOTelRecorder svc).recorder.RecordEvaluation none reason variant key tr).2)
        = addCount (NewOTelRecorder svc).recorder.impressions tr + 1
    ∧ counterValue (NewOTelRecorder svc).recorder.reasons
          (((NewOTelRecorder svc).recorder.RecordEvaluation none reason variant key tr).2)
        = counterValue (NewOTelRecorder svc).recorder.reasons tr + 1
    ∧ addCount (NewOTelRecorder svc).recorder.reasons
          (((NewOTelRecorder svc).recorder.RecordEvaluation none reason variant key tr).2)
        = addCount (NewOTelRecorder svc).recorder.reasons tr + 1
    ∧ ((reasonsAttrs reason none).all fun kv => kv.key != ExceptionTypeKeyName) = true := by
  refine ⟨?_, ?_, ?_, ?_, ?_, ?_⟩
  · simp [MetricsRecorder.RecordEvaluation, MetricsRecorder.Impressions,
      MetricsRecorder.Reasons]
  · simp [MetricsRecorder.RecordEvaluation, MetricsRecorder.Impressions,
      MetricsRecorder.Reasons, NewOTelRecorder, counterValue_append, counterValue]
  · simp [MetricsRecorder.RecordEvaluation, MetricsRecorder.Impressions,
      MetricsRecorder.Reasons, NewOTelRecorder, addCount_append, addCount]
  · simp [MetricsRecorder.RecordEvaluation, MetricsRecorder.Impressions,
      MetricsRecorder.Reasons, NewOTelRecorder, counterValue_append, counterValue]
  · simp [MetricsRecorder.RecordEvaluation, MetricsRecorder.Impressions,
      MetricsRecorder.Reasons, NewOTelRecorder, addCount_append, addCount]
  · simp [reasonsAttrs, FeatureFlagProviderName, FeatureFlagReason,
      ExceptionTypeKeyName, FeatureFlagReasonKeyName]

/-- Claim C3: for every service name, context trace, reason, variant, flag
key and non-nil error, `RecordEvaluation` appends exactly one reasons
increment of 1 and leaves the impressions counter untouched; the reasons
attribute set is the fixed provider-name attribute, the reason attribute,
and an exception-type attribute whose value is the error's message; and the
attribute list built by `Reasons` contains an exception-type key if and
only if the error is non-nil. -/
theorem RecordEvaluation_failure (svc reason variant key msg : String) (tr : List Event) :
    ((NewOTelRecorder svc).recorder.RecordEvaluation (some msg) reason variant key tr).2
        = tr ++ [Event.add (NewOTelRecorder svc).recorder.reasons 1
                   [FeatureFlagProviderName FlagdProviderName, FeatureFlagReason reason,
                    ExceptionType msg]]
    ∧ counterValue (NewOTelRecorder svc).recorder.impressions
          (((NewOTelRecorder svc).recorder.RecordEvaluation (some msg) reason variant key tr).2)
        = counterValue (NewOTelRecorder svc).recorder.impressions tr
    ∧ addCount (NewOTelRecorder svc).recorder.impressions
          (((NewOTelRecorder svc).recorder.RecordEvaluation (some msg) reason variant key tr).2)
        = addCount (NewOTelRecorder svc).recorder.impressions tr
    ∧ counterValue (NewOTelRecorder svc).recorder.reasons
          (((NewOTelRecorder svc).recorder.RecordEvaluation (some msg) reason variant key tr).2)
        = counterValue (NewOTelRecorder svc).recorder.reasons tr + 1
    ∧ addCount (NewOTelRecorder svc).recorder.reasons
          (((NewOTelRecorder svc).recorder.RecordEvaluation (some msg) reason variant key tr).2)
        = addCount (NewOTelRecorder svc).recorder.reasons tr + 1
    ∧ ExceptionType msg = { key := ExceptionTypeKeyName, value := msg }
    ∧ ∀ e : Option String,
        ((reasonsAttrs reason e).any fun kv => kv.key == ExceptionTypeKeyName) = true
          ↔ e ≠ none := by
  refine ⟨rfl, ?_, ?_, ?_, ?_, rfl, ?_⟩
  · simp [MetricsRecorder.RecordEvaluation, MetricsRecorder.Reasons,
      NewOTelRecorder, counterValue_append, counterValue]
  · simp [MetricsRecorder.RecordEvaluation, MetricsRecorder.Reasons,
      NewOTelRecorder, addCount_append, addCount]
  · simp [MetricsRecorder.RecordEvaluation, MetricsRecorder.Reasons,
      NewOTelRecorder, counterValue_append, counterValue]
  · simp [MetricsRecorder.RecordEvaluation, MetricsRecorder.Reasons,
      NewOTelRecorder, addCount_append, addCount]
  · intro e
    cases e <;>
      simp [reasonsAttrs, FeatureFlagProviderName, FeatureFlagReason, ExceptionType,
        ExceptionTypeKeyName, FeatureFlagReasonKeyName]

end Telemetry
